import Mathlib

/-!
Verification of the phone-validation service (Express/Twilio wrapper).

The repository holds several near-identical revisions of one `server.js`.
We shallowly embed the request handlers of the main revision
(`src/server.js`) and, where a claim cites them, the earlier revisions
(`src/unnamed/part_000`, `part_001`, `part_002`).  Network calls to the
external provider (Twilio Lookup / Verify) are modelled as an explicit
`Except Unit _` argument: `.ok` is a delivered provider response and
`.error ()` a network failure, timeout or thrown provider error.  Each
handler additionally reports whether the code path that performs the
external call was reached (`calledProvider`).

JavaScript strings are modelled as Lean `String`; the character-level
operations (`replace(/\D/g,"")`, `slice`, `toLowerCase`, `toUpperCase`,
`trim`, the two junk-pattern regexes and the toll-free regex) are
implemented structurally over `String.data` so that every definition
evaluates in the kernel.
-/

namespace PhoneValidation

/-- JS `raw.replace(/\D/g, "")`: keep only the ASCII digit characters. -/
def digitsOf (s : String) : List Char :=
  s.data.filter Char.isDigit

/-- JS `s.toLowerCase()` (ASCII letters, which is all this service feeds it). -/
def lowerStr (s : String) : String :=
  String.mk (s.data.map Char.toLower)

/-- JS `s.toUpperCase()` (ASCII letters, which is all this service feeds it). -/
def upperStr (s : String) : String :=
  String.mk (s.data.map Char.toUpper)

/-- JS `s.trim()`: drop leading and trailing whitespace. -/
def trimChars (l : List Char) : List Char :=
  ((l.dropWhile Char.isWhitespace).reverse.dropWhile Char.isWhitespace).reverse

/-- The regex test `/0000$/.test(local)`: the string ends in four zero digits. -/
def endsIn0000 (l : List Char) : Bool :=
  l.reverse.take 4 == ['0', '0', '0', '0']

/-- The regex test `/^(\d)\1{6,}$/.test(local)`: a digit followed by six or
more repetitions of that same digit, spanning the whole string. -/
def allSameDigitRun (l : List Char) : Bool :=
  match l with
  | [] => false
  | c :: rest => c.isDigit && decide (7 ≤ l.length) && rest.all (· == c)

/-- `looksFakeLocal` from the `part_002` appendix revision; the same two
regex tests appear inline in `server.js` and in `normalizeAndBasicCheck`
(`part_001`) and `normalizePhone` (`part_002`). -/
def looksFakeLocal (l : List Char) : Bool :=
  endsIn0000 l || allSameDigitRun l

/-- Local rejection reasons produced before any external call. -/
inductive NormError where
  | badLength
  | fakePattern
deriving DecidableEq

/-- The `type` code the local rejection branches place in the response. -/
def normErrType : NormError → String
  | .badLength => "bad-length"
  | .fakePattern => "fake-pattern"

/-- The message the local rejection branches place in the response. -/
def normErrMessage : NormError → String
  | .badLength => "Please enter a 10-digit US phone number."
  | .fakePattern => "Please enter a real, reachable mobile or landline number."

/-- `normalizeAndBasicCheck` (`part_001`) and `normalizePhone` (`part_002`):
strip non-digits, require exactly 10 digits, reject the two junk patterns
on the last 7 digits, and on success return the digits and `"+1" + digits`.
The same steps appear inline in the `server.js` `/validate-phone` handler. -/
def normalizeAndBasicCheck (rawPhone : String) : Except NormError (List Char × String) :=
  let digits := digitsOf rawPhone
  if digits.length ≠ 10 then
    .error .badLength
  else
    let localPart := digits.drop 3
    if looksFakeLocal localPart then
      .error .fakePattern
    else
      .ok (digits, String.mk ('+' :: '1' :: digits))

/-- `normalizePhone` from `part_002` performs exactly the same computation
as `normalizeAndBasicCheck` from `part_001` (they differ only in the JSON
shape wrapped around the error, which the handlers add themselves). -/
def normalizePhone : String → Except NormError (List Char × String) :=
  normalizeAndBasicCheck

/-- The fields of a Twilio Lookup v2 response that the handlers read:
`lookup.countryCode`, `lookup.lineTypeIntelligence.lineType`,
`lookup.lineTypeIntelligence.reachability`.  `none` models an absent
(JS `undefined`) field. -/
structure LookupResult where
  countryCode : Option String := none
  lineType : Option String := none
  reachability : Option String := none
deriving DecidableEq

/-- JS `lookup.countryCode || null`: an absent or empty string becomes null. -/
def jsStrOrNull (o : Option String) : Option String :=
  match o with
  | some s => if s = "" then none else some s
  | none => none

/-- JS `(lti.lineType || "").toLowerCase() || "unknown"`. -/
def procLineType (o : Option String) : String :=
  let s := lowerStr (o.getD "")
  if s = "" then "unknown" else s

/-- JS `(lti.reachability || "").toUpperCase() || "UNKNOWN"`. -/
def procReachability (o : Option String) : String :=
  let s := upperStr (o.getD "")
  if s = "" then "UNKNOWN" else s

/-- A JSON response together with its HTTP status.  `none` in an `Option`
field models the field being absent from the JSON body; `countryCode` is
doubly optional because the handlers can emit an explicit `null`. -/
structure Resp where
  status : Nat := 200
  valid : Option Bool := none
  type : Option String := none
  countryCode : Option (Option String) := none
  reachability : Option String := none
  reason : Option String := none
  message : Option String := none
  e164 : Option String := none
  success : Option Bool := none
  verifyStatus : Option String := none
deriving DecidableEq

/-- A handler run: the response sent, and whether the code path that
performs the external provider call was reached. -/
structure HandlerOut where
  resp : Resp
  calledProvider : Bool
deriving DecidableEq

/-- The validity rules of the `server.js` `/validate-phone` handler
(evaluated after a successful lookup): non-US country wins, then an
explicit UNREACHABLE, otherwise the number is accepted. -/
def classify (countryCode : Option String) (reachability : String) : Bool × String :=
  if countryCode ≠ some "US" then
    (false, "non-us")
  else if reachability = "UNREACHABLE" then
    (false, "unreachable")
  else
    (true, "ok")

/-- The `server.js` `POST /validate-phone` handler.  `phone` is
`req.body.phone` (`none` = absent), `lookup` the outcome of the Twilio
Lookup call. -/
def validatePhone (phone : Option String) (lookup : Except Unit LookupResult) : HandlerOut :=
  let raw := digitsOf (phone.getD "")
  if raw.length ≠ 10 then
    { resp := { valid := some false, type := some "bad-length",
                message := some "Please enter a 10-digit US phone number." },
      calledProvider := false }
  else
    let localPart := raw.drop 3
    if looksFakeLocal localPart then
      { resp := { valid := some false, type := some "fake-pattern",
                  message := some "Please enter a real, reachable mobile or landline number." },
        calledProvider := false }
    else
      match lookup with
      | .error _ =>
        { resp := { status := 500, valid := some false, type := some "error",
                    message := some "Could not validate phone number." },
          calledProvider := true }
      | .ok lk =>
        let countryCode := jsStrOrNull lk.countryCode
        let lineType := procLineType lk.lineType
        let reachability := procReachability lk.reachability
        let vr := classify countryCode reachability
        { resp := { valid := some vr.1,
                    type := some (if lineType = "" then "unknown" else lineType),
                    countryCode := some countryCode,
                    reachability := some reachability,
                    reason := some vr.2,
                    message := some (if vr.1 then "Valid US phone."
                      else "Please enter a real, reachable mobile or landline number.") },
          calledProvider := true }

/-- The fields of a Twilio Lookup v2 carrier response read by the
`part_000` revision: `lookup.carrier.type`, `lookup.phoneNumber`,
`lookup.countryCode`. -/
structure CarrierLookup where
  carrierType : Option String := none
  phoneNumber : Option String := none
  countryCode : Option String := none
deriving DecidableEq

/-- The list helper behind the toll-free regex: the string begins with the
given pattern. -/
def listBeginsWith (l p : List Char) : Bool :=
  l.take p.length == p

/-- The North-American toll-free area codes of the `part_000` regex. -/
def tollFreeCodes : List String :=
  ["800", "888", "877", "866", "855", "844", "833", "822"]

/-- The regex test `/^\+?1(800|888|877|866|855|844|833|822)\d{7}$/.test(e164)`
from `part_000`: an optional `+`, a `1`, a toll-free area code and exactly
seven further digits. -/
def isTollFree (s : String) : Bool :=
  let t := match s.data with
    | '+' :: rest => rest
    | l => l
  match t with
  | '1' :: u =>
    tollFreeCodes.any (fun p => listBeginsWith u p.data) &&
      (u.drop 3).length == 7 && (u.drop 3).all Char.isDigit
  | _ => false

/-- The `part_000` `POST /validate-phone` handler: no local normalization;
the raw body string goes straight to the lookup, and the decision is
`typeOK && !isTollFree && !isVoip` with allowed types mobile and landline
(the VOIP-block policy). -/
def validatePhoneV0 (phone : Option String) (lookup : Except Unit CarrierLookup) : HandlerOut :=
  if phone.getD "" = "" then
    { resp := { status := 400, valid := some false,
                message := some "Please enter your phone number." },
      calledProvider := false }
  else
    match lookup with
    | .error _ =>
      { resp := { valid := some false,
                  message := some "This phone number could not be verified. Please check it and try again." },
        calledProvider := true }
    | .ok lk =>
      let carrierType := lowerStr (lk.carrierType.getD "")
      let e164 := lk.phoneNumber.getD ""
      let typeOK := ["mobile", "landline"].contains carrierType
      let isVoip := carrierType == "voip"
      let ok := typeOK && !isTollFree e164 && !isVoip
      if ok then
        { resp := { valid := some true, e164 := some e164, type := some carrierType,
                    countryCode := lk.countryCode.map some },
          calledProvider := true }
      else
        { resp := { valid := some false,
                    type := some (if carrierType = "" then "unknown" else carrierType),
                    message := some "Please enter a real, reachable mobile or landline number." },
          calledProvider := true }

/-- The `server.js` `POST /check-verify` handler.  `configured` models
whether `TWILIO_VERIFY_SERVICE_SID` is set; `provider` is the outcome of
`verificationChecks.create` (`.ok status` the returned status string). -/
def checkVerify (configured : Bool) (phone code : Option String)
    (provider : Except Unit String) : HandlerOut :=
  if !configured then
    { resp := { status := 500, success := some false,
                message := some "Verify service not configured on server." },
      calledProvider := false }
  else
    let raw := digitsOf (phone.getD "")
    let c := trimChars (code.getD "").data
    if raw.length ≠ 10 ∨ c = [] then
      { resp := { status := 400, success := some false,
                  message := some "Phone and code are required." },
        calledProvider := false }
    else
      match provider with
      | .error _ =>
        { resp := { status := 500, success := some false,
                    message := some "Could not check verification code." },
          calledProvider := true }
      | .ok st =>
        { resp := { success := some true, valid := some (st == "approved"),
                    verifyStatus := some st },
          calledProvider := true }

/-- The `part_001` `POST /check-verify` handler: it runs
`normalizeAndBasicCheck` on the phone first, then requires a non-empty
trimmed code, then the configured Verify service, and only then calls the
provider. -/
def checkVerifyV1 (configured : Bool) (phone code : Option String)
    (provider : Except Unit String) : HandlerOut :=
  match normalizeAndBasicCheck (phone.getD "") with
  | .error e =>
    { resp := { valid := some false,
                message := some (if normErrMessage e = ""
                  then "Invalid phone number format." else normErrMessage e) },
      calledProvider := false }
  | .ok _ =>
    let c := trimChars (code.getD "").data
    if c = [] then
      { resp := { valid := some false,
                  message := some "Verification code is required." },
        calledProvider := false }
    else if !configured then
      { resp := { status := 500, valid := some false,
                  message := some "Verify Service SID not configured on server." },
        calledProvider := false }
    else
      match provider with
      | .error _ =>
        { resp := { status := 500, valid := some false,
                    message := some "Could not check verification code." },
          calledProvider := true }
      | .ok st =>
        { resp := { valid := some (st == "approved"), verifyStatus := some st,
                    message := some (if st == "approved"
                      then "Phone number successfully verified."
                      else "The verification code you entered is invalid or expired.") },
          calledProvider := true }

/-- The string the classifier path stores under `type` is never empty, so
the inline `lineType || "unknown"` fallback never fires. -/
theorem procLineType_ne_empty (o : Option String) : procLineType o ≠ "" := by
  unfold procLineType
  by_cases h : lowerStr (o.getD "") = "" <;> simp [h]

/-- Claim C1: for every successful lookup whose `countryCode` is present and
not `"US"`, the `/validate-phone` decision logic returns `valid:false` with
reason `"non-us"`, regardless of the reported line type. -/
theorem validate_non_us_rejects (phone : Option String) (lk : LookupResult) (c : String)
    (h10 : (digitsOf (phone.getD "")).length = 10)
    (hnf : looksFakeLocal ((digitsOf (phone.getD "")).drop 3) = false)
    (hcc : jsStrOrNull lk.countryCode = some c) (hus : c ≠ "US") :
    (validatePhone phone (.ok lk)).resp.valid = some false ∧
    (validatePhone phone (.ok lk)).resp.reason = some "non-us" := by
  simp [validatePhone, h10, hnf, classify, hcc, hus]

/-- Witness for C1: a Canadian mobile number is rejected as non-US. -/
theorem validate_non_us_rejects_inst :
    (validatePhone (some "2135551234")
      (.ok { countryCode := some "CA", lineType := some "mobile",
             reachability := some "REACHABLE" })).resp.valid = some false ∧
    (validatePhone (some "2135551234")
      (.ok { countryCode := some "CA", lineType := some "mobile",
             reachability := some "REACHABLE" })).resp.reason = some "non-us" :=
  validate_non_us_rejects (some "2135551234") _ "CA"
    (by decide) (by decide) (by decide) (by decide)

/-- Claim C2: for every lookup with `countryCode "US"` and a reachability
equal (case-insensitively) to `"unreachable"`, the decision logic returns
`valid:false` with reason `"unreachable"`, whatever the line type. -/
theorem validate_unreachable_rejects (phone : Option String) (lk : LookupResult) (r : String)
    (h10 : (digitsOf (phone.getD "")).length = 10)
    (hnf : looksFakeLocal ((digitsOf (phone.getD "")).drop 3) = false)
    (hcc : jsStrOrNull lk.countryCode = some "US")
    (hr : lk.reachability = some r) (hru : upperStr r = "UNREACHABLE") :
    (validatePhone phone (.ok lk)).resp.valid = some false ∧
    (validatePhone phone (.ok lk)).resp.reason = some "unreachable" := by
  simp [validatePhone, h10, hnf, classify, hcc, procReachability, hr, hru]

/-- Witness for C2: a US mobile number reported `"unreachable"` (lower
case) is rejected as unreachable. -/
theorem validate_unreachable_rejects_inst :
    (validatePhone (some "2135551234")
      (.ok { countryCode := some "US", lineType := some "mobile",
             reachability := some "unreachable" })).resp.valid = some false ∧
    (validatePhone (some "2135551234")
      (.ok { countryCode := some "US", lineType := some "mobile",
             reachability := some "unreachable" })).resp.reason = some "unreachable" :=
  validate_unreachable_rejects (some "2135551234") _ "unreachable"
    (by decide) (by decide) (by decide) (by decide) (by decide)

/-- Claim C3: every raw input with a digit count other than 10 after
stripping non-digits is rejected locally as `bad-length`, the provider is
not called, and `normalizeAndBasicCheck` fails with `badLength`. -/
theorem validate_bad_length_local (phone : Option String) (lookup : Except Unit LookupResult)
    (h : (digitsOf (phone.getD "")).length ≠ 10) :
    (validatePhone phone lookup).resp.valid = some false ∧
    (validatePhone phone lookup).resp.type = some "bad-length" ∧
    (validatePhone phone lookup).calledProvider = false ∧
    normalizeAndBasicCheck (phone.getD "") = .error .badLength := by
  simp [validatePhone, normalizeAndBasicCheck, h]

/-- Witness for C3: a 3-digit input is rejected locally. -/
theorem validate_bad_length_local_inst :
    (validatePhone (some "123") (.error ())).resp.valid = some false ∧
    (validatePhone (some "123") (.error ())).resp.type = some "bad-length" ∧
    (validatePhone (some "123") (.error ())).calledProvider = false ∧
    normalizeAndBasicCheck "123" = .error .badLength :=
  validate_bad_length_local (some "123") (.error ()) (by decide)

/-- Claim C4: every 10-digit input whose last 7 digits end in four zeros or
consist of one repeated digit is rejected locally as `fake-pattern`, the
provider is not called, and `normalizeAndBasicCheck` fails with
`fakePattern`. -/
theorem validate_fake_pattern_local (phone : Option String) (lookup : Except Unit LookupResult)
    (h10 : (digitsOf (phone.getD "")).length = 10)
    (hfk : looksFakeLocal ((digitsOf (phone.getD "")).drop 3) = true) :
    (validatePhone phone lookup).resp.valid = some false ∧
    (validatePhone phone lookup).resp.type = some "fake-pattern" ∧
    (validatePhone phone lookup).calledProvider = false ∧
    normalizeAndBasicCheck (phone.getD "") = .error .fakePattern := by
  simp [validatePhone, normalizeAndBasicCheck, h10, hfk]

/-- Witness for C4: `"555-123-0000"` (last seven digits end in `0000`) is
rejected locally as a fake pattern. -/
theorem validate_fake_pattern_local_inst :
    (validatePhone (some "555-123-0000") (.error ())).resp.valid = some false ∧
    (validatePhone (some "555-123-0000") (.error ())).resp.type = some "fake-pattern" ∧
    (validatePhone (some "555-123-0000") (.error ())).calledProvider = false ∧
    normalizeAndBasicCheck "555-123-0000" = .error .fakePattern :=
  validate_fake_pattern_local (some "555-123-0000") (.error ()) (by decide) (by decide)

/-- Claim C5 (amended): under the VOIP-block policy of the `part_000`
revision a voip line type always yields `valid:false`; the `server.js`
revision instead implements an allow policy, on which a voip number is
accepted whenever the country is US and reachability is not explicitly
`UNREACHABLE` — no revision requires an active/reachable status field to
be present. -/
theorem voip_block_and_allow :
    (∀ (phone : Option String) (lk0 : CarrierLookup),
      phone.getD "" ≠ "" →
      lowerStr (lk0.carrierType.getD "") = "voip" →
      (validatePhoneV0 phone (.ok lk0)).resp.valid = some false) ∧
    (∀ (phone : Option String) (lk : LookupResult),
      (digitsOf (phone.getD "")).length = 10 →
      looksFakeLocal ((digitsOf (phone.getD "")).drop 3) = false →
      jsStrOrNull lk.countryCode = some "US" →
      procReachability lk.reachability ≠ "UNREACHABLE" →
      (validatePhone phone (.ok lk)).resp.valid = some true) := by
  constructor
  · intro phone lk0 hp hcv
    simp [validatePhoneV0, hp, hcv]
  · intro phone lk h10 hnf hcc hr
    simp [validatePhone, h10, hnf, classify, hcc, hr]

/-- Witness for C5 (amended): `part_000` rejects a voip carrier type while
`server.js` accepts a reachable US voip number. -/
theorem voip_block_and_allow_inst :
    (validatePhoneV0 (some "+17145551234")
      (.ok { carrierType := some "voip", phoneNumber := some "+17145551234",
             countryCode := some "US" })).resp.valid = some false ∧
    (validatePhone (some "7145551234")
      (.ok { countryCode := some "US", lineType := some "voip",
             reachability := some "reachable" })).resp.valid = some true :=
  ⟨voip_block_and_allow.1 (some "+17145551234") _ (by decide) (by decide),
   voip_block_and_allow.2 (some "7145551234") _
     (by decide) (by decide) (by decide) (by decide)⟩

/-- Counterexample to C5 as stated: in the `server.js` revision a US voip
number with the reachability field entirely absent is still accepted
(`valid:true`, reachability defaulted to `"UNKNOWN"`), so validity does
not require an accompanying active/reachable status field. -/
theorem voip_valid_without_reachability_field :
    (validatePhone (some "7145551234")
      (.ok { countryCode := some "US", lineType := some "voip",
             reachability := none })).resp.valid = some true ∧
    (validatePhone (some "7145551234")
      (.ok { countryCode := some "US", lineType := some "voip",
             reachability := none })).resp.reachability = some "UNKNOWN" := by
  decide

/-- Claim C6: a US mobile number reported reachable is accepted with
reason `"ok"` and its lowercased line type in the `type` field. -/
theorem validate_mobile_reachable_ok (phone : Option String) (lk : LookupResult) (lt r : String)
    (h10 : (digitsOf (phone.getD "")).length = 10)
    (hnf : looksFakeLocal ((digitsOf (phone.getD "")).drop 3) = false)
    (hcc : jsStrOrNull lk.countryCode = some "US")
    (hlt : lk.lineType = some lt) (hltm : lowerStr lt = "mobile")
    (hr : lk.reachability = some r) (hru : upperStr r = "REACHABLE") :
    (validatePhone phone (.ok lk)).resp.valid = some true ∧
    (validatePhone phone (.ok lk)).resp.reason = some "ok" ∧
    (validatePhone phone (.ok lk)).resp.type = some "mobile" := by
  simp [validatePhone, h10, hnf, classify, hcc, procLineType, hlt, hltm,
    procReachability, hr, hru]

/-- Witness for C6: a reachable US mobile number is accepted. -/
theorem validate_mobile_reachable_ok_inst :
    (validatePhone (some "2135551234")
      (.ok { countryCode := some "US", lineType := some "mobile",
             reachability := some "reachable" })).resp.valid = some true ∧
    (validatePhone (some "2135551234")
      (.ok { countryCode := some "US", lineType := some "mobile",
             reachability := some "reachable" })).resp.reason = some "ok" ∧
    (validatePhone (some "2135551234")
      (.ok { countryCode := some "US", lineType := some "mobile",
             reachability := some "reachable" })).resp.type = some "mobile" :=
  validate_mobile_reachable_ok (some "2135551234") _ "mobile" "reachable"
    (by decide) (by decide) (by decide) (by decide) (by decide) (by decide) (by decide)

/-- Claim C7 (amended): every verdict produced on the post-lookup
classifier path of `server.js` carries all six fields — `valid`, `type`
(the processed, lowercased-or-unknown line type), `countryCode` (possibly
null), `reachability`, `reason` (one of `non-us`, `unreachable`, `ok`) and
`message`.  The local-rejection and provider-error branches carry only
`valid`, `type` and `message`. -/
theorem classifier_verdict_fields (phone : Option String) (lk : LookupResult)
    (h10 : (digitsOf (phone.getD "")).length = 10)
    (hnf : looksFakeLocal ((digitsOf (phone.getD "")).drop 3) = false) :
    (validatePhone phone (.ok lk)).resp.valid.isSome = true ∧
    (validatePhone phone (.ok lk)).resp.type = some (procLineType lk.lineType) ∧
    (validatePhone phone (.ok lk)).resp.countryCode = some (jsStrOrNull lk.countryCode) ∧
    (validatePhone phone (.ok lk)).resp.reachability = some (procReachability lk.reachability) ∧
    ((validatePhone phone (.ok lk)).resp.reason = some "non-us" ∨
      (validatePhone phone (.ok lk)).resp.reason = some "unreachable" ∨
      (validatePhone phone (.ok lk)).resp.reason = some "ok") ∧
    (validatePhone phone (.ok lk)).resp.message.isSome = true := by
  have hcl : (validatePhone phone (.ok lk)).resp.reason =
      some (classify (jsStrOrNull lk.countryCode) (procReachability lk.reachability)).2 := by
    simp [validatePhone, h10, hnf]
  have hreason : ∀ (cc : Option String) (r : String),
      (classify cc r).2 = "non-us" ∨ (classify cc r).2 = "unreachable" ∨
        (classify cc r).2 = "ok" := by
    intro cc r
    unfold classify
    split
    · left; rfl
    · split
      · right; left; rfl
      · right; right; rfl
  refine ⟨by simp [validatePhone, h10, hnf],
    by simp [validatePhone, h10, hnf, procLineType_ne_empty lk.lineType],
    by simp [validatePhone, h10, hnf],
    by simp [validatePhone, h10, hnf],
    ?_,
    by simp [validatePhone, h10, hnf]⟩
  rcases hreason (jsStrOrNull lk.countryCode) (procReachability lk.reachability) with h | h | h
  · left; rw [hcl, h]
  · right; left; rw [hcl, h]
  · right; right; rw [hcl, h]

/-- Witness for C7 (amended): all six fields are present on the verdict
for a reachable US mobile number. -/
theorem classifier_verdict_fields_inst :
    (validatePhone (some "3105551234")
      (.ok { countryCode := some "US", lineType := some "Mobile",
             reachability := some "reachable" })).resp.valid.isSome = true ∧
    (validatePhone (some "3105551234")
      (.ok { countryCode := some "US", lineType := some "Mobile",
             reachability := some "reachable" })).resp.type =
        some (procLineType (some "Mobile")) ∧
    (validatePhone (some "3105551234")
      (.ok { countryCode := some "US", lineType := some "Mobile",
             reachability := some "reachable" })).resp.countryCode =
        some (jsStrOrNull (some "US")) ∧
    (validatePhone (some "3105551234")
      (.ok { countryCode := some "US", lineType := some "Mobile",
             reachability := some "reachable" })).resp.reachability =
        some (procReachability (some "reachable")) ∧
    ((validatePhone (some "3105551234")
      (.ok { countryCode := some "US", lineType := some "Mobile",
             reachability := some "reachable" })).resp.reason = some "non-us" ∨
      (validatePhone (some "3105551234")
        (.ok { countryCode := some "US", lineType := some "Mobile",
               reachability := some "reachable" })).resp.reason = some "unreachable" ∨
      (validatePhone (some "3105551234")
        (.ok { countryCode := some "US", lineType := some "Mobile",
               reachability := some "reachable" })).resp.reason = some "ok") ∧
    (validatePhone (some "3105551234")
      (.ok { countryCode := some "US", lineType := some "Mobile",
             reachability := some "reachable" })).resp.message.isSome = true :=
  classifier_verdict_fields (some "3105551234") _ (by decide) (by decide)

/-- Counterexample to C7 as stated: the local bad-length rejection branch
of `server.js` emits only `valid`, `type` and `message`; `countryCode`,
`reachability` and `reason` are absent from that verdict. -/
theorem local_reject_verdict_missing_fields :
    (validatePhone (some "123") (.error ())).resp.valid = some false ∧
    (validatePhone (some "123") (.error ())).resp.type = some "bad-length" ∧
    (validatePhone (some "123") (.error ())).resp.message.isSome = true ∧
    (validatePhone (some "123") (.error ())).resp.countryCode = none ∧
    (validatePhone (some "123") (.error ())).resp.reachability = none ∧
    (validatePhone (some "123") (.error ())).resp.reason = none := by
  decide

/-- Claim C8: when the provider lookup fails or times out after a
well-formed number passed the local checks, `/validate-phone` answers
HTTP 500 with `valid:false` and `type:"error"`; moreover the handler is
total — every input yields an HTTP 200 or 500 response, never a
propagated fault. -/
theorem provider_failure_500 (phone : Option String)
    (h10 : (digitsOf (phone.getD "")).length = 10)
    (hnf : looksFakeLocal ((digitsOf (phone.getD "")).drop 3) = false) :
    (validatePhone phone (.error ())).resp.status = 500 ∧
    (validatePhone phone (.error ())).resp.valid = some false ∧
    (validatePhone phone (.error ())).resp.type = some "error" ∧
    (∀ lookup : Except Unit LookupResult,
      (validatePhone phone lookup).resp.status = 200 ∨
      (validatePhone phone lookup).resp.status = 500) := by
  refine ⟨by simp [validatePhone, h10, hnf], by simp [validatePhone, h10, hnf],
    by simp [validatePhone, h10, hnf], ?_⟩
  intro lookup
  cases lookup with
  | error e => right; simp [validatePhone, h10, hnf]
  | ok lk => left; simp [validatePhone, h10, hnf]

/-- Witness for C8: a provider failure on a well-formed number yields the
500 error verdict. -/
theorem provider_failure_500_inst :
    (validatePhone (some "2137771234") (.error ())).resp.status = 500 ∧
    (validatePhone (some "2137771234") (.error ())).resp.valid = some false ∧
    (validatePhone (some "2137771234") (.error ())).resp.type = some "error" ∧
    (∀ lookup : Except Unit LookupResult,
      (validatePhone (some "2137771234") lookup).resp.status = 200 ∨
      (validatePhone (some "2137771234") lookup).resp.status = 500) :=
  provider_failure_500 (some "2137771234") (by decide) (by decide)

/-- Claim C9: a `/check-verify` request whose code is empty after trimming
never reaches the provider, and (when the Verify service is configured)
fails with the 400 missing-input response. -/
theorem check_verify_missing_code (configured : Bool) (phone code : Option String)
    (provider : Except Unit String)
    (hc : trimChars (code.getD "").data = []) :
    (checkVerify configured phone code provider).calledProvider = false ∧
    (configured = true →
      (checkVerify configured phone code provider).resp.status = 400 ∧
      (checkVerify configured phone code provider).resp.message =
        some "Phone and code are required.") := by
  cases configured <;> simp [checkVerify, hc]

/-- Witness for C9: a whitespace-only code is rejected without a provider
call. -/
theorem check_verify_missing_code_inst :
    (checkVerify true (some "2135551234") (some "   ") (.ok "approved")).calledProvider = false ∧
    (true = true →
      (checkVerify true (some "2135551234") (some "   ") (.ok "approved")).resp.status = 400 ∧
      (checkVerify true (some "2135551234") (some "   ") (.ok "approved")).resp.message =
        some "Phone and code are required.") :=
  check_verify_missing_code true (some "2135551234") (some "   ") (.ok "approved") (by decide)

/-- Claim C10 (amended): in `server.js` a `/check-verify` phone with a
digit count other than 10 is rejected with HTTP 400 before the provider is
contacted, even with a non-empty code; the fake-pattern filter is not
applied on this route there, though the `part_001` revision rejects every
`normalizeAndBasicCheck` failure (bad length or fake pattern) without a
provider call. -/
theorem check_verify_local_reject :
    (∀ (configured : Bool) (phone code : Option String) (provider : Except Unit String),
      (digitsOf (phone.getD "")).length ≠ 10 →
        (checkVerify configured phone code provider).calledProvider = false ∧
        (configured = true →
          (checkVerify configured phone code provider).resp.status = 400)) ∧
    (∀ (configured : Bool) (phone code : Option String) (provider : Except Unit String)
        (e : NormError),
      normalizeAndBasicCheck (phone.getD "") = .error e →
        (checkVerifyV1 configured phone code provider).calledProvider = false ∧
        (checkVerifyV1 configured phone code provider).resp.valid = some false) := by
  constructor
  · intro configured phone code provider h
    cases configured <;> simp [checkVerify, h]
  · intro configured phone code provider e h
    simp [checkVerifyV1, h]

/-- Witness for C10 (amended): a short phone is rejected by `server.js`
without a provider call, and a fake-pattern phone is rejected by the
`part_001` revision without a provider call. -/
theorem check_verify_local_reject_inst :
    ((checkVerify true (some "123") (some "123456") (.ok "approved")).calledProvider = false ∧
      (true = true →
        (checkVerify true (some "123") (some "123456") (.ok "approved")).resp.status = 400)) ∧
    ((checkVerifyV1 true (some "5551230000") (some "123456") (.ok "approved")).calledProvider = false ∧
      (checkVerifyV1 true (some "5551230000") (some "123456") (.ok "approved")).resp.valid =
        some false) :=
  ⟨check_verify_local_reject.1 true (some "123") (some "123456") (.ok "approved") (by decide),
   check_verify_local_reject.2 true (some "5551230000") (some "123456") (.ok "approved")
     .fakePattern rfl⟩

/-- Counterexample to C10 as stated: `server.js` `/check-verify` does not
run the fake-pattern filter, so the fake number `5551230000` (which
`normalizeAndBasicCheck` rejects) is forwarded to the provider and the
request succeeds. -/
theorem check_verify_fake_pattern_contacts_provider :
    (checkVerify true (some "5551230000") (some "123456") (.ok "approved")).calledProvider = true ∧
    (checkVerify true (some "5551230000") (some "123456") (.ok "approved")).resp.success =
      some true ∧
    normalizeAndBasicCheck "5551230000" = .error .fakePattern :=
  ⟨rfl, rfl, rfl⟩

end PhoneValidation
